import Mathlib

/-!
# Verification of the user onboarding and authentication core

A shallow embedding of the Go registration / login handlers
(`registerUserHandler`, `createTokenHandler`, `generateUsername`,
`validatePassword`, `readJSON`) together with the SHA-256 digest the
handler uses for invitation-token storage.  Strings are modelled as
lists of characters (`Str`); the external collaborators (account
repository, mailer, bcrypt hasher, JWT signer, random UUID source) are
modelled as oracles supplied to the handler, and the persistence store
as an explicit list of accounts threaded through the run.
-/

/-- Strings of the embedded program, as lists of characters. -/
abbrev Str := List Char

/-- ASCII lower-case letter or digit, the class `[a-z0-9]` of the
username regexp `usernameNonAlnum` (which removes its complement). -/
def isLowerAlnum (c : Char) : Bool :=
  (97 ≤ c.toNat && c.toNat ≤ 122) || (48 ≤ c.toNat && c.toNat ≤ 57)

/-- ASCII white space, the model of the space class used by
`strings.TrimSpace`. -/
def isSpaceA (c : Char) : Bool :=
  c.toNat == 32 || (9 ≤ c.toNat && c.toNat ≤ 13)

/-- ASCII lower-casing of one character, the model of
`strings.ToLower`. -/
def asciiToLower (c : Char) : Char :=
  if 65 ≤ c.toNat && c.toNat ≤ 90 then Char.ofNat (c.toNat + 32) else c

/-- `strings.ToLower`. -/
def goToLower (s : Str) : Str := s.map asciiToLower

/-- `strings.TrimSpace`: drop white space from both ends. -/
def trimSpace (s : Str) : Str :=
  ((s.dropWhile isSpaceA).reverse.dropWhile isSpaceA).reverse

/-- `usernameNonAlnum.ReplaceAllString(s, "")`: replacing every run of
characters outside `[a-z0-9]` by the empty string keeps exactly the
characters inside the class. -/
def stripNonAlnum (s : Str) : Str := s.filter isLowerAlnum

/-- `strings.Split(email, "@")[0]`: the prefix before the first `@`
(the whole string when there is none). -/
def localPart (email : Str) : Str := email.takeWhile (fun c => c ≠ '@')

/-- `generateUsername(firstName, lastName, email)` from the handler
file.  The one `uuid.New().String()` the call consumes is passed in as
`uuid` (it is used either whole-truncated-to-12 as the random
identifier fallback, or truncated-to-6 as the collision suffix). -/
def generateUsername (firstName lastName email uuid : Str) : Str :=
  let base := stripNonAlnum (trimSpace (goToLower (firstName ++ ('.' :: lastName))))
  let base := if base = [] then stripNonAlnum (goToLower (localPart email)) else base
  if base = [] then uuid.take 12
  else (base.take 20) ++ uuid.take 6

/-- ASCII lower-case letter. -/
def isLowerA (c : Char) : Bool := 97 ≤ c.toNat && c.toNat ≤ 122

/-- ASCII upper-case letter. -/
def isUpperA (c : Char) : Bool := 65 ≤ c.toNat && c.toNat ≤ 90

/-- ASCII digit. -/
def isDigitA (c : Char) : Bool := 48 ≤ c.toNat && c.toNat ≤ 57

/-- ASCII punctuation or symbol, the model of
`unicode.IsPunct(r) || unicode.IsSymbol(r)`: a printable ASCII
character that is not a letter, digit or space. -/
def isSpecialA (c : Char) : Bool :=
  (33 ≤ c.toNat && c.toNat ≤ 126) &&
    !(isLowerA c || isUpperA c || isDigitA c)

/-- The character-class scan of `validatePassword`: fold over the
password mirroring the Go `switch` (lower, else upper, else digit,
else punct-or-symbol). -/
def passwordScan (s : Str) : Bool × Bool × Bool × Bool :=
  s.foldl
    (fun acc c =>
      let (lo, up, di, sp) := acc
      if isLowerA c then (true, up, di, sp)
      else if isUpperA c then (lo, true, di, sp)
      else if isDigitA c then (lo, up, true, sp)
      else if isSpecialA c then (lo, up, di, true)
      else acc)
    (false, false, false, false)

/-- `validatePassword` from the validation helpers: length at least 8
and at least one lower-case, upper-case, digit and special character.
This custom rule is registered under the tag `password`; no field of
the register or login payloads carries that tag. -/
def validatePassword (s : Str) : Bool :=
  let (lo, up, di, sp) := passwordScan s
  decide (8 ≤ s.length) && lo && up && di && sp

/-- The register payload `RegisterUserPayload`. -/
structure RegisterUserPayload where
  firstName : Str
  lastName : Str
  country : Str
  email : Str
  password : Str
  passwordConfirmation : Str
  username : Str
deriving DecidableEq, Repr

/-- The `required` tag on a string field: the value is not the zero
value, i.e. not empty. -/
def requiredOk (s : Str) : Bool := !(s = [])

/-- The `max=n` tag on a string field: at most `n` characters. -/
def maxOk (n : Nat) (s : Str) : Bool := s.length ≤ n

/-- The `min=n` tag on a string field: at least `n` characters. -/
def minOk (n : Nat) (s : Str) : Bool := n ≤ s.length

/-- `Validate.Struct` on `RegisterUserPayload`, field tag by field tag.
The built-in `email` format check of the validation library is
abstracted as the parameter `emailTag`.  The tags are exactly those on
the struct: `required,max=100` on first name, last name and country;
`required,email,max=255` on email; `required,min=3,max=72` on
password; `required,eqfield=Password` on the confirmation;
`omitempty,max=100` on username.  No field carries the custom
`password` tag. -/
def validateRegisterPayload (emailTag : Str → Bool) (p : RegisterUserPayload) : Bool :=
  requiredOk p.firstName && maxOk 100 p.firstName &&
  requiredOk p.lastName && maxOk 100 p.lastName &&
  requiredOk p.country && maxOk 100 p.country &&
  requiredOk p.email && emailTag p.email && maxOk 255 p.email &&
  requiredOk p.password && minOk 3 p.password && maxOk 72 p.password &&
  requiredOk p.passwordConfirmation && (p.passwordConfirmation = p.password : Bool) &&
  (p.username = [] || maxOk 100 p.username)

/-- The login payload `CreateUserTokenPayload`. -/
structure CreateUserTokenPayload where
  email : Str
  password : Str
deriving DecidableEq, Repr

/-- `Validate.Struct` on `CreateUserTokenPayload`:
`required,email,max=255` on email, `required,min=3,max=72` on
password. -/
def validateTokenPayload (emailTag : Str → Bool) (p : CreateUserTokenPayload) : Bool :=
  requiredOk p.email && emailTag p.email && maxOk 255 p.email &&
  requiredOk p.password && minOk 3 p.password && maxOk 72 p.password

/-! ## SHA-256 (`crypto/sha256` + `encoding/hex`), on byte lists -/

/-- Reduce to a 32-bit word. -/
def w32 (n : Nat) : Nat := n % 4294967296

/-- Right rotation of a 32-bit word by `n`. -/
def rotr32 (n x : Nat) : Nat := w32 ((x >>> n) ||| (x <<< (32 - n)))

/-- SHA-256 Σ0. -/
def bigSigma0 (x : Nat) : Nat := (rotr32 2 x ^^^ rotr32 13 x) ^^^ rotr32 22 x

/-- SHA-256 Σ1. -/
def bigSigma1 (x : Nat) : Nat := (rotr32 6 x ^^^ rotr32 11 x) ^^^ rotr32 25 x

/-- SHA-256 σ0. -/
def smallSigma0 (x : Nat) : Nat := (rotr32 7 x ^^^ rotr32 18 x) ^^^ (x >>> 3)

/-- SHA-256 σ1. -/
def smallSigma1 (x : Nat) : Nat := (rotr32 17 x ^^^ rotr32 19 x) ^^^ (x >>> 10)

/-- SHA-256 Ch: `(e ∧ f) ⊕ (¬e ∧ g)` on 32-bit words. -/
def sha2Ch (e f g : Nat) : Nat := (e &&& f) ^^^ ((e ^^^ 4294967295) &&& g)

/-- SHA-256 Maj. -/
def sha2Maj (a b c : Nat) : Nat := ((a &&& b) ^^^ (a &&& c)) ^^^ (b &&& c)

/-- The 64 SHA-256 round constants. -/
def sha2K : List Nat :=
  [1116352408, 1899447441, 3049323471, 3921009573, 961987163, 1508970993,
   2453635748, 2870763221, 3624381080, 310598401, 607225278, 1426881987,
   1925078388, 2162078206, 2614888103, 3248222580, 3835390401, 4022224774,
   264347078, 604807628, 770255983, 1249150122, 1555081692, 1996064986,
   2554220882, 2821834349, 2952996808, 3210313671, 3336571891, 3584528711,
   113926993, 338241895, 666307205, 773529912, 1294757372, 1396182291,
   1695183700, 1986661051, 2177026350, 2456956037, 2730485921, 2820302411,
   3259730800, 3345764771, 3516065817, 3600352804, 4094571909, 275423344,
   430227734, 506948616, 659060556, 883997877, 958139571, 1322822218,
   1537002063, 1747873779, 1955562222, 2024104815, 2227730452, 2361852424,
   2428436474, 2756734187, 3204031479, 3329325298]

/-- The eight 32-bit working variables of the compression function. -/
structure H8 where
  a : Nat
  b : Nat
  c : Nat
  d : Nat
  e : Nat
  f : Nat
  g : Nat
  h : Nat
deriving DecidableEq, Repr

/-- The SHA-256 initial hash value. -/
def sha2H0 : H8 :=
  ⟨1779033703, 3144134277, 1013904242, 2773480762, 1359893119, 2600822924, 528734635, 1541459225⟩

/-- Big-endian byte decomposition, fixed width `k` bytes. -/
def toBytesBE : Nat → Nat → List Nat
  | 0, _ => []
  | k + 1, n => toBytesBE k (n / 256) ++ [n % 256]

/-- Group bytes into big-endian 32-bit words. -/
def bytesToWords : List Nat → List Nat
  | b0 :: b1 :: b2 :: b3 :: rest =>
      (((b0 * 256 + b1) * 256 + b2) * 256 + b3) :: bytesToWords rest
  | _ => []

/-- Extend the 16-word block schedule by `n` further words. -/
def extendSchedule (ws : List Nat) : Nat → List Nat
  | 0 => ws
  | n + 1 =>
      let t := ws.length
      let w := w32 (smallSigma1 (ws.getD (t - 2) 0) + ws.getD (t - 7) 0 +
                    smallSigma0 (ws.getD (t - 15) 0) + ws.getD (t - 16) 0)
      extendSchedule (ws ++ [w]) n

/-- One SHA-256 round. -/
def sha2Round (st : H8) (k w : Nat) : H8 :=
  let t1 := w32 (st.h + bigSigma1 st.e + sha2Ch st.e st.f st.g + k + w)
  let t2 := w32 (bigSigma0 st.a + sha2Maj st.a st.b st.c)
  ⟨w32 (t1 + t2), st.a, st.b, st.c, w32 (st.d + t1), st.e, st.f, st.g⟩

/-- Compress one 64-byte block into the running hash state. -/
def compressBlock (st : H8) (block : List Nat) : H8 :=
  let ws := extendSchedule (bytesToWords block) 48
  let fin := (sha2K.zip ws).foldl (fun s kw => sha2Round s kw.1 kw.2) st
  ⟨w32 (st.a + fin.a), w32 (st.b + fin.b), w32 (st.c + fin.c), w32 (st.d + fin.d),
   w32 (st.e + fin.e), w32 (st.f + fin.f), w32 (st.g + fin.g), w32 (st.h + fin.h)⟩

/-- Compress a padded message, 64 bytes at a time. -/
def compressAll (st : H8) : List Nat → H8
  | [] => st
  | b :: rest =>
      compressAll (compressBlock st ((b :: rest).take 64)) ((b :: rest).drop 64)
termination_by l => l.length
decreasing_by simp [List.length_drop]; omega

/-- SHA-256 padding: `0x80`, zeros to 56 mod 64, then the bit length
as 8 big-endian bytes. -/
def sha256pad (msg : List Nat) : List Nat :=
  msg ++ (128 :: List.replicate ((119 - msg.length % 64) % 64) 0) ++
    toBytesBE 8 (msg.length * 8)

/-- `sha256.Sum256`: the 32-byte SHA-256 digest of a byte list. -/
def sha256bytes (msg : List Nat) : List Nat :=
  let st := compressAll sha2H0 (sha256pad msg)
  List.flatten (([st.a, st.b, st.c, st.d, st.e, st.f, st.g, st.h]).map (toBytesBE 4))

/-- One lower-case hex digit. -/
def hexDigit (n : Nat) : Char := if n < 10 then Char.ofNat (48 + n) else Char.ofNat (87 + n)

/-- `encoding/hex.EncodeToString`: two lower-case hex characters per
byte. -/
def hexEncode (bs : List Nat) : Str := List.flatten (bs.map (fun b => [hexDigit (b / 16), hexDigit (b % 16)]))

/-- The token stored by the handler: hex-encoded SHA-256 of the
plaintext's bytes (the plaintext is an ASCII UUID string, so code
points are bytes). -/
def sha256hex (s : Str) : Str := hexEncode (sha256bytes (s.map Char.toNat))

/-! ## The account store and the handler oracles -/

/-- An account row as the handlers observe it: the repository-assigned
id, the username and the email.  Modelled from the spec: the account
repository (not part of the handler file) assigns the identity on
creation and supports lookup and deletion. -/
structure Account where
  id : Nat
  username : Str
  email : Str
deriving DecidableEq, Repr

/-- The persistence store visible to a request: the list of accounts. -/
abbrev Store := List Account

/-- Outcome of one `store.Users.CreateAndInvite` call, as the handler
distinguishes them: success with the assigned id, `ErrDuplicateEmail`,
`ErrDuplicateUsername`, or any other error. -/
inductive CreateOutcome where
  | ok (id : Nat)
  | dupEmail
  | dupUsername
  | otherErr
deriving DecidableEq, Repr

/-- One recorded `CreateAndInvite` call: the username on the user row
and the token value passed for storage. -/
structure CreateCall where
  username : Str
  tokenHash : Str
deriving DecidableEq, Repr

/-- The oracle environment of one register request: the repository's
answer to the i-th create attempt, the stream of `uuid.New().String()`
values in call order, the bcrypt hasher (`none` = internal error), the
mailer result (`none` = send error), whether the compensating delete
succeeds, and the validation library's built-in `email` tag. -/
structure RegEnv where
  createResult : Nat → CreateOutcome
  uuid : Nat → Str
  hashPassword : Str → Option Str
  mailResult : Option Nat
  deleteOk : Bool
  emailTag : Str → Bool

/-- A parsed HTTP request body: its byte size, the JSON field names it
carries, and the payload it decodes to when well-formed. -/
structure Body (α : Type) where
  size : Nat
  fields : List Str
  parsed : Option α

/-- The JSON field names declared on `RegisterUserPayload`. -/
def registerFields : List Str :=
  ["first_name".data, "last_name".data, "country".data, "email".data,
   "password".data, "password_confirmation".data, "username".data]

/-- The JSON field names declared on `CreateUserTokenPayload`. -/
def tokenFields : List Str :=
  ["email".data, "password".data]

/-- `readJSON`: the body is read through `http.MaxBytesReader` capped
at `1_048_578` bytes and decoded with `DisallowUnknownFields`; decoding
fails when the body exceeds the cap, carries a field not declared on
the target struct, or is otherwise malformed. -/
def readJSON (declared : List Str) {α : Type} (b : Body α) : Option α :=
  if 1048578 < b.size then none
  else if b.fields.any (fun f => !(declared.contains f)) then none
  else b.parsed

/-- Everything a handler run did besides computing the response: the
`CreateAndInvite` calls in order, whether the mailer was invoked, the
ids passed to `store.Users.Delete`, and the final store. -/
structure Effects where
  createCalls : List CreateCall
  mailCalled : Bool
  deletedIds : List Nat
  store : Store
deriving Repr

/-- The response kinds a handler can write. -/
inductive ApiResponse where
  | badRequestJSON
  | badRequestValidation
  | badRequestDupEmail
  | badRequestDupUsername
  | internalError
  | createdUser (user : Account) (token : Str)
  | unauthorized
  | createdToken (token : Str)
deriving DecidableEq, Repr

/-- Result of the bounded create-retry loop of `registerUserHandler`. -/
inductive LoopRes where
  | dupEmailStop (trace : List CreateCall) (store : Store)
  | internalStop (trace : List CreateCall) (store : Store)
  | success (id : Nat) (username : Str) (uuidIdx : Nat) (trace : List CreateCall) (store : Store)
  | exhausted (uuidIdx : Nat) (trace : List CreateCall) (store : Store)
deriving Repr

/-- The `CreateAndInvite` trace of a loop result. -/
def LoopRes.trace : LoopRes → List CreateCall
  | .dupEmailStop t _ => t
  | .internalStop t _ => t
  | .success _ _ _ t _ => t
  | .exhausted _ t _ => t

/-- The `for attempt := 0; attempt < 5; attempt++` loop of
`registerUserHandler`, with `fuel` the remaining iterations: call
`CreateAndInvite`; on success stop with the assigned id; on
`ErrDuplicateEmail` or any unexpected error stop; on
`ErrDuplicateUsername` regenerate the username from the profile data
with the next uuid and continue.  A successful create inserts the
account into the store (modelled from the spec: atomic
`createWithInvitation`). -/
def createLoop (env : RegEnv) (p : RegisterUserPayload) (hashToken : Str) :
    Nat → Nat → Nat → Str → Store → List CreateCall → LoopRes
  | 0, _, uuidIdx, _, store, trace => .exhausted uuidIdx trace store
  | fuel + 1, attempt, uuidIdx, username, store, trace =>
      let trace' := trace ++ [⟨username, hashToken⟩]
      match env.createResult attempt with
      | .ok id => .success id username uuidIdx trace' (⟨id, username, p.email⟩ :: store)
      | .dupEmail => .dupEmailStop trace' store
      | .dupUsername =>
          createLoop env p hashToken fuel (attempt + 1) (uuidIdx + 1)
            (generateUsername p.firstName p.lastName p.email (env.uuid uuidIdx)) store trace'
      | .otherErr => .internalStop trace' store

/-- The username the handler starts with: the caller's when supplied,
otherwise `generateUsername` on the first uuid. -/
def initialUsername (env : RegEnv) (p : RegisterUserPayload) : Str :=
  if p.username = [] then generateUsername p.firstName p.lastName p.email (env.uuid 0) else p.username

/-- Index in the uuid stream of the `uuid.New()` that becomes the
plaintext token: the initial `generateUsername` call (made only when
the payload carries no username) consumes index 0 first. -/
def plainTokenIdx (p : RegisterUserPayload) : Nat :=
  if p.username = [] then 1 else 0

/-- `store.Users.Delete(ctx, id)`: remove the account when the delete
succeeds, leave the store unchanged when it fails.  Modelled from the
spec: the repository's delete operation. -/
def deleteAccount (ok : Bool) (id : Nat) (store : Store) : Store :=
  if ok then store.filter (fun a => a.id ≠ id) else store

/-- `registerUserHandler`: read the JSON body, validate the payload,
pick the username, hash the password, generate the plaintext token and
its SHA-256 storage hash, run the bounded create loop, apply the
sentinel `user.ID == 0` check, send the welcome mail, and on mail
failure compensate by deleting the created account (best-effort)
before reporting an internal error. -/
def registerUserHandler (env : RegEnv) (store0 : Store) (b : Body RegisterUserPayload) :
    ApiResponse × Effects :=
  match readJSON registerFields b with
  | none => (.badRequestJSON, ⟨[], false, [], store0⟩)
  | some p =>
    if !validateRegisterPayload env.emailTag p then
      (.badRequestValidation, ⟨[], false, [], store0⟩)
    else
      let username0 := initialUsername env p
      match env.hashPassword p.password with
      | none => (.internalError, ⟨[], false, [], store0⟩)
      | some _ =>
        let plainToken := env.uuid (plainTokenIdx p)
        let hashToken := sha256hex plainToken
        match createLoop env p hashToken 5 0 (plainTokenIdx p + 1) username0 store0 [] with
        | .dupEmailStop trace store => (.badRequestDupEmail, ⟨trace, false, [], store⟩)
        | .internalStop trace store => (.internalError, ⟨trace, false, [], store⟩)
        | .exhausted _ trace store => (.badRequestDupUsername, ⟨trace, false, [], store⟩)
        | .success id username _ trace store =>
          if id = 0 then (.badRequestDupUsername, ⟨trace, false, [], store⟩)
          else
            match env.mailResult with
            | some _ => (.createdUser ⟨id, username, p.email⟩ plainToken, ⟨trace, true, [], store⟩)
            | none =>
                (.internalError, ⟨trace, true, [id], deleteAccount env.deleteOk id store⟩)

/-! ## The login handler (`createTokenHandler`) -/

/-- Outcome of `store.Users.GetByEmail`: the account, `ErrNotFound`,
or any other error. -/
inductive GetByEmailResult where
  | found (u : Account)
  | notFound
  | otherErr
deriving Repr

/-- The JWT claim set built by `createTokenHandler`. -/
structure Claims where
  sub : Nat
  exp : Nat
  iat : Nat
  nbf : Nat
  iss : Str
  aud : Str
deriving DecidableEq, Repr

/-- The oracle environment of one login request: the repository's
answer to `GetByEmail`, the result of `user.Password.Compare`, the
current unix time, the configured token TTL and issuer, the signer
(`none` = internal error) and the validation library's `email` tag. -/
structure LoginEnv where
  getByEmail : GetByEmailResult
  compareOk : Bool
  now : Nat
  ttl : Nat
  iss : Str
  signToken : Claims → Option Str
  emailTag : Str → Bool

/-- What a login run did besides the response: the claim set handed to
the JWT signer, if any, and the final store (the handler issues no
write). -/
structure LoginEffects where
  mintedClaims : Option Claims
  store : Store
deriving Repr

/-- `createTokenHandler`: read the JSON body, validate, look the
account up by email (absent → unauthorized, other store error →
internal), compare the password (mismatch → unauthorized), then mint
the claim set `{sub, exp = now + ttl, iat = now, nbf = now, iss, aud =
iss}` and sign it.  No store write occurs on any path. -/
def createTokenHandler (env : LoginEnv) (store0 : Store) (b : Body CreateUserTokenPayload) :
    ApiResponse × LoginEffects :=
  match readJSON tokenFields b with
  | none => (.badRequestJSON, ⟨none, store0⟩)
  | some p =>
    if !validateTokenPayload env.emailTag p then
      (.badRequestValidation, ⟨none, store0⟩)
    else
      match env.getByEmail with
      | .notFound => (.unauthorized, ⟨none, store0⟩)
      | .otherErr => (.internalError, ⟨none, store0⟩)
      | .found u =>
        if !env.compareOk then (.unauthorized, ⟨none, store0⟩)
        else
          let claims : Claims :=
            ⟨u.id, env.now + env.ttl, env.now, env.now, env.iss, env.iss⟩
          match env.signToken claims with
          | none => (.internalError, ⟨some claims, store0⟩)
          | some tok => (.createdToken tok, ⟨some claims, store0⟩)

/-! ## Concrete fixtures used by the closed witnesses -/

/-- A concrete register payload: the spec's example registration. -/
def wPayload : RegisterUserPayload :=
  ⟨"Ann".data, "Lee".data, "US".data, "ann@example.com".data,
   "Str0ng!Pass".data, "Str0ng!Pass".data, []⟩

/-- The same payload with a caller-supplied username. -/
def wPayloadU : RegisterUserPayload :=
  ⟨"Ann".data, "Lee".data, "US".data, "ann@example.com".data,
   "Str0ng!Pass".data, "Str0ng!Pass".data, "annlee".data⟩

/-- A well-formed request body carrying `wPayload`. -/
def wBody : Body RegisterUserPayload := ⟨100, registerFields, some wPayload⟩

/-- A well-formed request body carrying `wPayloadU`. -/
def wBodyU : Body RegisterUserPayload := ⟨100, registerFields, some wPayloadU⟩

/-- A concrete 36-character uuid value for the oracle stream. -/
def wUuid : Str := "a1b2c3d4-e5f6-7890-abcd-ef1234567890".data

/-- A concrete register oracle environment, parametrised by the
repository's create answers and the mailer result. -/
def wEnv (cr : Nat → CreateOutcome) (mail : Option Nat) : RegEnv :=
  ⟨cr, fun _ => wUuid, fun _ => some "bcrypt".data, mail, true, fun _ => true⟩

/-- Register oracle: every create attempt reports a username conflict. -/
def wEnvDup : RegEnv := wEnv (fun _ => .dupUsername) (some 200)

/-- Register oracle: create succeeds at once, mail dispatch fails. -/
def wEnvMailFail : RegEnv := wEnv (fun _ => .ok 7) none

/-- Register oracle: the first create reports an email conflict. -/
def wEnvDupEmail : RegEnv := wEnv (fun _ => .dupEmail) (some 200)

/-- Register oracle: first create collides on the username, the retry
succeeds. -/
def wEnvRetryOk : RegEnv := wEnv (fun i => if i = 0 then .dupUsername else .ok 7) (some 200)

/-- Register oracle: the happy path. -/
def wEnvOk : RegEnv := wEnv (fun _ => .ok 7) (some 200)

/-! ## Username generation: supporting lemmas -/

/-- A white-space character is outside `[a-z0-9]`. -/
theorem isLowerAlnum_of_isSpaceA {c : Char} (h : isSpaceA c = true) :
    isLowerAlnum c = false := by
  simp [isSpaceA, isLowerAlnum] at *
  omega

/-- Filtering ignores a dropped prefix whose members the filter
rejects anyway. -/
theorem filter_dropWhile_of_imp {α : Type} (q p : α → Bool)
    (h : ∀ a, p a = true → q a = false) :
    ∀ l : List α, (l.dropWhile p).filter q = l.filter q := by
  intro l
  induction l with
  | nil => rfl
  | cons a l ih =>
      by_cases hp : p a = true
      · rw [List.dropWhile_cons_of_pos hp, ih, List.filter_cons_of_neg]
        simp [h a hp]
      · rw [List.dropWhile_cons_of_neg hp]

/-- `TrimSpace` before the `[^a-z0-9]+` strip is redundant: the strip
already removes every white-space character. -/
theorem stripNonAlnum_trimSpace (s : Str) :
    stripNonAlnum (trimSpace s) = stripNonAlnum s := by
  unfold stripNonAlnum trimSpace
  rw [List.filter_reverse,
      filter_dropWhile_of_imp _ _ (fun a h => isLowerAlnum_of_isSpaceA h),
      List.filter_reverse, List.reverse_reverse,
      filter_dropWhile_of_imp _ _ (fun a h => isLowerAlnum_of_isSpaceA h)]

/-- C4.  For every first name, last name, email and random uuid, the
generated username follows the spec's three-stage construction: the
base is the `[a-z0-9]`-stripped lower-casing of first+`.`+last (the
source's extra `TrimSpace` is redundant); when that is empty, the same
stripping of the email's local part; when both are empty the result is
the 12-character random identifier; otherwise the base truncated to 20
characters with a 6-character random suffix appended.  In particular,
for first name `Ann` and last name `Lee` the result is
`annlee` + suffix with the suffix 6 characters from `[a-z0-9]`, for
every uuid of the hex-with-dashes shape. -/
theorem generateUsername_spec (f l e u : Str)
    (hu6 : 6 ≤ u.length) (hhex : ∀ c ∈ u.take 6, isLowerAlnum c = true) :
    ((stripNonAlnum (goToLower (f ++ ('.' :: l))) ≠ [] →
        generateUsername f l e u =
          (stripNonAlnum (goToLower (f ++ ('.' :: l)))).take 20 ++ u.take 6) ∧
     (stripNonAlnum (goToLower (f ++ ('.' :: l))) = [] →
        stripNonAlnum (goToLower (localPart e)) ≠ [] →
        generateUsername f l e u =
          (stripNonAlnum (goToLower (localPart e))).take 20 ++ u.take 6) ∧
     (stripNonAlnum (goToLower (f ++ ('.' :: l))) = [] →
        stripNonAlnum (goToLower (localPart e)) = [] →
        generateUsername f l e u = u.take 12)) ∧
    ∃ suffix : Str, generateUsername "Ann".data "Lee".data e u = "annlee".data ++ suffix ∧
      suffix.length = 6 ∧ ∀ c ∈ suffix, isLowerAlnum c = true := by
  have hbase : ∀ (f' l' : Str),
      stripNonAlnum (trimSpace (goToLower (f' ++ ('.' :: l')))) =
        stripNonAlnum (goToLower (f' ++ ('.' :: l'))) := by
    intro f' l'; exact stripNonAlnum_trimSpace _
  constructor
  · refine ⟨?_, ?_, ?_⟩
    · intro h1
      unfold generateUsername
      simp only [hbase, h1, if_neg h1]
      simp [h1]
    · intro h1 h2
      unfold generateUsername
      simp only [hbase, h1, if_pos rfl]
      simp [h2]
    · intro h1 h2
      unfold generateUsername
      simp only [hbase, h1, if_pos rfl]
      simp [h2]
  · refine ⟨u.take 6, ?_, ?_, ?_⟩
    · unfold generateUsername
      rw [hbase]
      norm_num [goToLower, stripNonAlnum, asciiToLower, isLowerAlnum]
      rfl
    · simp [List.length_take]
      omega
    · exact hhex

/-- Witness for C4 at the spec's example inputs and a concrete uuid. -/
theorem generateUsername_spec_witness :
    6 ≤ ("a1b2c3d4-e5f6-7890-abcd-ef1234567890".data : Str).length ∧
    (∀ c ∈ ("a1b2c3d4-e5f6-7890-abcd-ef1234567890".data : Str).take 6, isLowerAlnum c = true) ∧
    ∃ suffix : Str,
      generateUsername "Ann".data "Lee".data "ann@example.com".data
          "a1b2c3d4-e5f6-7890-abcd-ef1234567890".data = "annlee".data ++ suffix ∧
      suffix.length = 6 ∧ ∀ c ∈ suffix, isLowerAlnum c = true :=
  ⟨by decide, by decide,
   (generateUsername_spec "Ann".data "Lee".data "ann@example.com".data
      "a1b2c3d4-e5f6-7890-abcd-ef1234567890".data (by decide) (by decide)).2⟩

/-- C8.  The only rules validated on the registration password are
`required`, `min=3` and `max=72`: a payload whose password is `abc`
(no upper-case letter, digit or special character) with a matching
confirmation passes `Validate.Struct`, while the stricter registered
rule `validatePassword` rejects that same password — it is simply not
attached to any field of `RegisterUserPayload`. -/
theorem registerPayload_password_rule (emailTag : Str → Bool) (p : RegisterUserPayload)
    (hf : requiredOk p.firstName = true) (hf' : maxOk 100 p.firstName = true)
    (hl : requiredOk p.lastName = true) (hl' : maxOk 100 p.lastName = true)
    (hc : requiredOk p.country = true) (hc' : maxOk 100 p.country = true)
    (he : requiredOk p.email = true) (he' : emailTag p.email = true)
    (he'' : maxOk 255 p.email = true)
    (hp : p.password = "abc".data) (hp' : p.passwordConfirmation = "abc".data)
    (hu : (p.username = [] || maxOk 100 p.username) = true) :
    validateRegisterPayload emailTag p = true ∧ validatePassword p.password = false := by
  constructor
  · simp only [validateRegisterPayload, hf, hf', hl, hl', hc, hc', he, he', he'', hp, hp', hu]
    simp [requiredOk, minOk, maxOk]
  · rw [hp]; decide

/-- Witness for C8 at a concrete payload. -/
theorem registerPayload_password_rule_witness :
    validateRegisterPayload (fun _ => true)
      ⟨"Ann".data, "Lee".data, "US".data, "ann@example.com".data,
       "abc".data, "abc".data, []⟩ = true ∧
    validatePassword "abc".data = false := by
  have h := registerPayload_password_rule (fun _ => true)
    ⟨"Ann".data, "Lee".data, "US".data, "ann@example.com".data,
     "abc".data, "abc".data, []⟩
    (by decide) (by decide) (by decide) (by decide) (by decide) (by decide)
    (by decide) rfl (by decide) rfl rfl (by decide)
  exact h

/-! ## Login theorems -/

/-- C6.  A login whose email matches no account and a login whose
account is found but whose password comparison fails write the same
`unauthorized` response kind: nothing in the response distinguishes
the two cases. -/
theorem login_unauthorized_indistinguishable
    (envA envB : LoginEnv) (storeA storeB : Store)
    (bA bB : Body CreateUserTokenPayload) (pA pB : CreateUserTokenPayload) (u : Account)
    (hrA : readJSON tokenFields bA = some pA)
    (hvA : validateTokenPayload envA.emailTag pA = true)
    (hrB : readJSON tokenFields bB = some pB)
    (hvB : validateTokenPayload envB.emailTag pB = true)
    (hA : envA.getByEmail = .notFound)
    (hB : envB.getByEmail = .found u) (hcmp : envB.compareOk = false) :
    (createTokenHandler envA storeA bA).1 = .unauthorized ∧
    (createTokenHandler envB storeB bB).1 = .unauthorized ∧
    (createTokenHandler envA storeA bA).1 = (createTokenHandler envB storeB bB).1 := by
  have hA' : (createTokenHandler envA storeA bA).1 = .unauthorized := by
    unfold createTokenHandler
    rw [hrA]
    simp [hvA, hA]
  have hB' : (createTokenHandler envB storeB bB).1 = .unauthorized := by
    unfold createTokenHandler
    rw [hrB]
    simp [hvB, hB, hcmp]
  exact ⟨hA', hB', by rw [hA', hB']⟩

/-- Witness for C6 at concrete environments. -/
theorem login_unauthorized_indistinguishable_witness :
    (createTokenHandler
      ⟨.notFound, true, 0, 0, [], fun _ => none, fun _ => true⟩ []
      ⟨10, tokenFields, some ⟨"a@b.co".data, "pass".data⟩⟩).1 = .unauthorized ∧
    (createTokenHandler
      ⟨.found ⟨1, "u".data, "a@b.co".data⟩, false, 0, 0, [], fun _ => none, fun _ => true⟩ []
      ⟨10, tokenFields, some ⟨"a@b.co".data, "pass".data⟩⟩).1 = .unauthorized ∧
    (createTokenHandler
      ⟨.notFound, true, 0, 0, [], fun _ => none, fun _ => true⟩ []
      ⟨10, tokenFields, some ⟨"a@b.co".data, "pass".data⟩⟩).1 =
    (createTokenHandler
      ⟨.found ⟨1, "u".data, "a@b.co".data⟩, false, 0, 0, [], fun _ => none, fun _ => true⟩ []
      ⟨10, tokenFields, some ⟨"a@b.co".data, "pass".data⟩⟩).1 :=
  login_unauthorized_indistinguishable _ _ _ _ _ _
    ⟨"a@b.co".data, "pass".data⟩ ⟨"a@b.co".data, "pass".data⟩ _
    (by decide) (by decide) (by decide) (by decide) rfl rfl rfl

/-- C7.  A successful login mints exactly the claim set
`{sub = account id, exp = now + TTL, iat = now, nbf = now,
iss = aud = configured issuer}` and signs it; the store after the
request is the store before it — no session state is written. -/
theorem login_success_claims (env : LoginEnv) (store : Store)
    (b : Body CreateUserTokenPayload) (p : CreateUserTokenPayload) (u : Account) (tok : Str)
    (hr : readJSON tokenFields b = some p)
    (hv : validateTokenPayload env.emailTag p = true)
    (hf : env.getByEmail = .found u) (hcmp : env.compareOk = true)
    (hs : env.signToken ⟨u.id, env.now + env.ttl, env.now, env.now, env.iss, env.iss⟩ = some tok) :
    (createTokenHandler env store b).1 = .createdToken tok ∧
    (createTokenHandler env store b).2.mintedClaims =
      some ⟨u.id, env.now + env.ttl, env.now, env.now, env.iss, env.iss⟩ ∧
    (createTokenHandler env store b).2.store = store := by
  unfold createTokenHandler
  rw [hr]
  simp [hv, hf, hcmp, hs]

/-- Witness for C7 at a concrete environment. -/
theorem login_success_claims_witness :
    (createTokenHandler
      ⟨.found ⟨42, "u".data, "a@b.co".data⟩, true, 1000, 3600, "social".data,
       fun _ => some "jwt".data, fun _ => true⟩ []
      ⟨10, tokenFields, some ⟨"a@b.co".data, "pass".data⟩⟩).1 = .createdToken "jwt".data ∧
    (createTokenHandler
      ⟨.found ⟨42, "u".data, "a@b.co".data⟩, true, 1000, 3600, "social".data,
       fun _ => some "jwt".data, fun _ => true⟩ []
      ⟨10, tokenFields, some ⟨"a@b.co".data, "pass".data⟩⟩).2.mintedClaims =
      some ⟨42, 4600, 1000, 1000, "social".data, "social".data⟩ ∧
    (createTokenHandler
      ⟨.found ⟨42, "u".data, "a@b.co".data⟩, true, 1000, 3600, "social".data,
       fun _ => some "jwt".data, fun _ => true⟩ []
      ⟨10, tokenFields, some ⟨"a@b.co".data, "pass".data⟩⟩).2.store = [] :=
  login_success_claims _ _ _ ⟨"a@b.co".data, "pass".data⟩ ⟨42, "u".data, "a@b.co".data⟩ _
    (by decide) (by decide) rfl rfl rfl

/-! ## Body-reading theorems -/

/-- A body over the size cap or with an undeclared field fails to
decode. -/
theorem readJSON_none {α : Type} (declared : List Str) (b : Body α)
    (h : 1048578 < b.size ∨ ∃ f ∈ b.fields, declared.contains f = false) :
    readJSON declared b = none := by
  unfold readJSON
  rcases h with h | ⟨f, hf, hfd⟩
  · rw [if_pos h]
  · by_cases hs : 1048578 < b.size
    · rw [if_pos hs]
    · rw [if_neg hs, if_pos]
      exact List.any_eq_true.mpr ⟨f, hf, by simpa using hfd⟩

/-- C10.  Both handlers cap the JSON body at 1,048,578 bytes and
reject a body carrying a field not declared on the payload struct; in
either case the request is answered as a bad request with no create
call, no mail, no delete, and the store unchanged. -/
theorem readJSON_rejects_before_effects
    (envR : RegEnv) (envL : LoginEnv) (storeR storeL : Store)
    (bR : Body RegisterUserPayload) (bL : Body CreateUserTokenPayload)
    (hR : 1048578 < bR.size ∨ ∃ f ∈ bR.fields, registerFields.contains f = false)
    (hL : 1048578 < bL.size ∨ ∃ f ∈ bL.fields, tokenFields.contains f = false) :
    registerUserHandler envR storeR bR = (.badRequestJSON, ⟨[], false, [], storeR⟩) ∧
    createTokenHandler envL storeL bL = (.badRequestJSON, ⟨none, storeL⟩) := by
  constructor
  · unfold registerUserHandler
    rw [readJSON_none _ _ hR]
  · unfold createTokenHandler
    rw [readJSON_none _ _ hL]

/-- Witness for C10: an oversized register body and a login body with
an unknown field. -/
theorem readJSON_rejects_before_effects_witness :
    (1048578 < (2000000 : Nat) ∨
      ∃ f ∈ ([] : List Str), registerFields.contains f = false) ∧
    (1048578 < (10 : Nat) ∨
      ∃ f ∈ ["hacker".data], tokenFields.contains f = false) ∧
    registerUserHandler
      ⟨fun _ => .ok 1, fun _ => [], fun _ => some [], some 200, true, fun _ => true⟩ []
      ⟨2000000, [], none⟩ = (.badRequestJSON, ⟨[], false, [], []⟩) ∧
    createTokenHandler
      ⟨.notFound, true, 0, 0, [], fun _ => none, fun _ => true⟩ []
      ⟨10, ["hacker".data], none⟩ = (.badRequestJSON, ⟨none, []⟩) := by
  refine ⟨Or.inl (by decide), Or.inr ⟨"hacker".data, by decide, by decide⟩, ?_⟩
  exact readJSON_rejects_before_effects _ _ _ _ _ _
    (Or.inl (by decide)) (Or.inr ⟨"hacker".data, by decide, by decide⟩)

/-- The create loop makes at most `fuel` further `CreateAndInvite`
calls beyond the trace it is given. -/
theorem createLoop_trace_length (env : RegEnv) (p : RegisterUserPayload) (ht : Str) :
    ∀ (fuel attempt uuidIdx : Nat) (username : Str) (store : Store) (trace : List CreateCall),
      (createLoop env p ht fuel attempt uuidIdx username store trace).trace.length ≤
        trace.length + fuel := by
  intro fuel
  induction fuel with
  | zero =>
      intro attempt uuidIdx username store trace
      simp [createLoop, LoopRes.trace]
  | succ n ih =>
      intro attempt uuidIdx username store trace
      simp only [createLoop]
      cases h : env.createResult attempt with
      | ok id => simp [LoopRes.trace]
      | dupEmail => simp [LoopRes.trace]
      | dupUsername =>
          simp only []
          have := ih (attempt + 1) (uuidIdx + 1)
            (generateUsername p.firstName p.lastName p.email (env.uuid uuidIdx)) store
            (trace ++ [⟨username, ht⟩])
          simp at this
          omega
      | otherErr => simp [LoopRes.trace]

/-- When the first `i` create attempts collide on the username and
attempt `i` succeeds, the loop stops in `success` with the account
inserted, having made `i + 1` calls, all of which passed the same
stored token value. -/
theorem createLoop_success_of (env : RegEnv) (p : RegisterUserPayload) (ht : Str) (id : Nat) :
    ∀ (i fuel attempt uuidIdx : Nat) (username : Str) (store : Store) (trace : List CreateCall),
      i < fuel →
      env.createResult (attempt + i) = .ok id →
      (∀ j < i, env.createResult (attempt + j) = .dupUsername) →
      ∃ (u' : Str) (trace' : List CreateCall),
        createLoop env p ht fuel attempt uuidIdx username store trace =
          .success id u' (uuidIdx + i) trace' (⟨id, u', p.email⟩ :: store) ∧
        trace'.length = trace.length + i + 1 ∧
        (∀ c ∈ trace', c ∈ trace ∨ c.tokenHash = ht) := by
  intro i
  induction i with
  | zero =>
      intro fuel attempt uuidIdx username store trace hfuel hok _
      match fuel, hfuel with
      | n + 1, _ =>
        refine ⟨username, trace ++ [⟨username, ht⟩], ?_, by simp, ?_⟩
        · simp only [createLoop]
          rw [Nat.add_zero] at hok
          rw [hok]
          simp
        · intro c hc
          rcases List.mem_append.mp hc with h | h
          · exact Or.inl h
          · simp at h; subst h; exact Or.inr rfl
  | succ i ih =>
      intro fuel attempt uuidIdx username store trace hfuel hok hdups
      match fuel, hfuel with
      | n + 1, hfuel =>
        have hdup0 : env.createResult attempt = .dupUsername := by
          have := hdups 0 (Nat.succ_pos i)
          simpa using this
        have hok' : env.createResult (attempt + 1 + i) = .ok id := by
          rw [show attempt + 1 + i = attempt + (i + 1) by omega]; exact hok
        have hdups' : ∀ j < i, env.createResult (attempt + 1 + j) = .dupUsername := by
          intro j hj
          rw [show attempt + 1 + j = attempt + (j + 1) by omega]
          exact hdups (j + 1) (by omega)
        obtain ⟨u', trace', heq, hlen, hmem⟩ :=
          ih n (attempt + 1) (uuidIdx + 1)
            (generateUsername p.firstName p.lastName p.email (env.uuid uuidIdx)) store
            (trace ++ [⟨username, ht⟩]) (by omega) hok' hdups'
        refine ⟨u', trace', ?_, ?_, ?_⟩
        · simp only [createLoop]
          rw [hdup0]
          rw [show uuidIdx + 1 + i = uuidIdx + (i + 1) by omega] at heq
          exact heq
        · simp at hlen; omega
        · intro c hc
          rcases hmem c hc with h | h
          · rcases List.mem_append.mp h with h' | h'
            · exact Or.inl h'
            · simp at h'; subst h'; exact Or.inr rfl
          · exact Or.inr h

/-- When the first `i` create attempts collide on the username and
attempt `i` reports an email conflict, the loop stops at once in
`dupEmailStop`, leaving the store unchanged, after `i + 1` calls. -/
theorem createLoop_dupEmail_of (env : RegEnv) (p : RegisterUserPayload) (ht : Str) :
    ∀ (i fuel attempt uuidIdx : Nat) (username : Str) (store : Store) (trace : List CreateCall),
      i < fuel →
      env.createResult (attempt + i) = .dupEmail →
      (∀ j < i, env.createResult (attempt + j) = .dupUsername) →
      ∃ trace' : List CreateCall,
        createLoop env p ht fuel attempt uuidIdx username store trace =
          .dupEmailStop trace' store ∧
        trace'.length = trace.length + i + 1 := by
  intro i
  induction i with
  | zero =>
      intro fuel attempt uuidIdx username store trace hfuel hdupE _
      match fuel, hfuel with
      | n + 1, _ =>
        refine ⟨trace ++ [⟨username, ht⟩], ?_, by simp⟩
        simp only [createLoop]
        rw [Nat.add_zero] at hdupE
        rw [hdupE]
  | succ i ih =>
      intro fuel attempt uuidIdx username store trace hfuel hdupE hdups
      match fuel, hfuel with
      | n + 1, hfuel =>
        have hdup0 : env.createResult attempt = .dupUsername := by
          have := hdups 0 (Nat.succ_pos i)
          simpa using this
        have hdupE' : env.createResult (attempt + 1 + i) = .dupEmail := by
          rw [show attempt + 1 + i = attempt + (i + 1) by omega]; exact hdupE
        have hdups' : ∀ j < i, env.createResult (attempt + 1 + j) = .dupUsername := by
          intro j hj
          rw [show attempt + 1 + j = attempt + (j + 1) by omega]
          exact hdups (j + 1) (by omega)
        obtain ⟨trace', heq, hlen⟩ :=
          ih n (attempt + 1) (uuidIdx + 1)
            (generateUsername p.firstName p.lastName p.email (env.uuid uuidIdx)) store
            (trace ++ [⟨username, ht⟩]) (by omega) hdupE' hdups'
        refine ⟨trace', ?_, ?_⟩
        · simp only [createLoop]
          rw [hdup0]
          exact heq
        · simp at hlen; omega

/-- When all five create attempts report a username conflict the loop
exhausts its bound: five calls, the first with the starting username
and each retry with a freshly generated one. -/
theorem createLoop_all_dup (env : RegEnv) (p : RegisterUserPayload) (ht : Str)
    (uuidIdx : Nat) (username : Str) (store : Store)
    (h : ∀ i < 5, env.createResult i = .dupUsername) :
    createLoop env p ht 5 0 uuidIdx username store [] =
      .exhausted (uuidIdx + 5)
        [⟨username, ht⟩,
         ⟨generateUsername p.firstName p.lastName p.email (env.uuid uuidIdx), ht⟩,
         ⟨generateUsername p.firstName p.lastName p.email (env.uuid (uuidIdx + 1)), ht⟩,
         ⟨generateUsername p.firstName p.lastName p.email (env.uuid (uuidIdx + 2)), ht⟩,
         ⟨generateUsername p.firstName p.lastName p.email (env.uuid (uuidIdx + 3)), ht⟩]
        store := by
  have h0 := h 0 (by norm_num)
  have h1 := h 1 (by norm_num)
  have h2 := h 2 (by norm_num)
  have h3 := h 3 (by norm_num)
  have h4 := h 4 (by norm_num)
  simp [createLoop, h0, h1, h2, h3, h4]

/-- Unfolding of `registerUserHandler` past a well-formed body, a
passing validation and a successful password hash, down to the case
split on the create loop's result. -/
theorem registerUserHandler_eq (env : RegEnv) (store : Store)
    (b : Body RegisterUserPayload) (p : RegisterUserPayload) (hpw : Str)
    (hr : readJSON registerFields b = some p)
    (hv : validateRegisterPayload env.emailTag p = true)
    (hh : env.hashPassword p.password = some hpw) :
    registerUserHandler env store b =
      (match createLoop env p (sha256hex (env.uuid (plainTokenIdx p))) 5 0
          (plainTokenIdx p + 1) (initialUsername env p) store [] with
       | .dupEmailStop trace store' => (.badRequestDupEmail, ⟨trace, false, [], store'⟩)
       | .internalStop trace store' => (.internalError, ⟨trace, false, [], store'⟩)
       | .exhausted _ trace store' => (.badRequestDupUsername, ⟨trace, false, [], store'⟩)
       | .success id username _ trace store' =>
         if id = 0 then (.badRequestDupUsername, ⟨trace, false, [], store'⟩)
         else
           match env.mailResult with
           | some _ => (.createdUser ⟨id, username, p.email⟩ (env.uuid (plainTokenIdx p)),
                        ⟨trace, true, [], store'⟩)
           | none => (.internalError,
                      ⟨trace, true, [id], deleteAccount env.deleteOk id store'⟩)) := by
  unfold registerUserHandler
  rw [hr]
  simp only [hv, hh]
  rfl

/-- C1.  On username conflicts the orchestrator regenerates the
username and retries the atomic create, making at most 5 create
attempts in total; when all 5 attempts report a username conflict the
registration fails with the DuplicateUsername bad-request response —
not an internal error — after exactly the five recorded attempts, the
first with the initial username and each retry with a regenerated
one. -/
theorem register_username_retry_bounded (env : RegEnv) (store : Store)
    (b : Body RegisterUserPayload) (p : RegisterUserPayload) (hpw : Str)
    (hr : readJSON registerFields b = some p)
    (hv : validateRegisterPayload env.emailTag p = true)
    (hh : env.hashPassword p.password = some hpw) :
    (registerUserHandler env store b).2.createCalls.length ≤ 5 ∧
    ((∀ i < 5, env.createResult i = .dupUsername) →
      (registerUserHandler env store b).1 = .badRequestDupUsername ∧
      (registerUserHandler env store b).2.createCalls =
        [⟨initialUsername env p, sha256hex (env.uuid (plainTokenIdx p))⟩,
         ⟨generateUsername p.firstName p.lastName p.email (env.uuid (plainTokenIdx p + 1)),
          sha256hex (env.uuid (plainTokenIdx p))⟩,
         ⟨generateUsername p.firstName p.lastName p.email (env.uuid (plainTokenIdx p + 2)),
          sha256hex (env.uuid (plainTokenIdx p))⟩,
         ⟨generateUsername p.firstName p.lastName p.email (env.uuid (plainTokenIdx p + 3)),
          sha256hex (env.uuid (plainTokenIdx p))⟩,
         ⟨generateUsername p.firstName p.lastName p.email (env.uuid (plainTokenIdx p + 4)),
          sha256hex (env.uuid (plainTokenIdx p))⟩]) := by
  rw [registerUserHandler_eq env store b p hpw hr hv hh]
  constructor
  · have hlen := createLoop_trace_length env p (sha256hex (env.uuid (plainTokenIdx p))) 5 0
      (plainTokenIdx p + 1) (initialUsername env p) store []
    cases hcl : createLoop env p (sha256hex (env.uuid (plainTokenIdx p))) 5 0
        (plainTokenIdx p + 1) (initialUsername env p) store [] with
    | dupEmailStop trace st =>
        rw [hcl] at hlen
        simpa [LoopRes.trace] using hlen
    | internalStop trace st =>
        rw [hcl] at hlen
        simpa [LoopRes.trace] using hlen
    | success id u k trace st =>
        rw [hcl] at hlen
        by_cases hid : id = 0
        · simpa [hid, LoopRes.trace] using hlen
        · cases hm : env.mailResult with
          | none => simpa [hid, hm, LoopRes.trace] using hlen
          | some v => simpa [hid, hm, LoopRes.trace] using hlen
    | exhausted k trace st =>
        rw [hcl] at hlen
        simpa [LoopRes.trace] using hlen
  · intro hdup
    rw [createLoop_all_dup env p (sha256hex (env.uuid (plainTokenIdx p)))
      (plainTokenIdx p + 1) (initialUsername env p) store hdup]
    exact ⟨rfl, rfl⟩

/-- Witness for C1: a concrete run in which every attempt collides. -/
theorem register_username_retry_bounded_witness :
    (registerUserHandler wEnvDup [] wBody).2.createCalls.length ≤ 5 ∧
    ((∀ i < 5, wEnvDup.createResult i = .dupUsername) →
      (registerUserHandler wEnvDup [] wBody).1 = .badRequestDupUsername ∧
      (registerUserHandler wEnvDup [] wBody).2.createCalls =
        [⟨initialUsername wEnvDup wPayload, sha256hex (wEnvDup.uuid (plainTokenIdx wPayload))⟩,
         ⟨generateUsername wPayload.firstName wPayload.lastName wPayload.email
            (wEnvDup.uuid (plainTokenIdx wPayload + 1)),
          sha256hex (wEnvDup.uuid (plainTokenIdx wPayload))⟩,
         ⟨generateUsername wPayload.firstName wPayload.lastName wPayload.email
            (wEnvDup.uuid (plainTokenIdx wPayload + 2)),
          sha256hex (wEnvDup.uuid (plainTokenIdx wPayload))⟩,
         ⟨generateUsername wPayload.firstName wPayload.lastName wPayload.email
            (wEnvDup.uuid (plainTokenIdx wPayload + 3)),
          sha256hex (wEnvDup.uuid (plainTokenIdx wPayload))⟩,
         ⟨generateUsername wPayload.firstName wPayload.lastName wPayload.email
            (wEnvDup.uuid (plainTokenIdx wPayload + 4)),
          sha256hex (wEnvDup.uuid (plainTokenIdx wPayload))⟩]) :=
  register_username_retry_bounded wEnvDup [] wBody wPayload "bcrypt".data
    (by decide) (by decide) rfl

/-- C3.  A unique-email conflict is terminal: the handler answers
DuplicateEmail as a bad request immediately, makes no further create
attempt after the conflicting one, never invokes the mailer or the
delete, and leaves the store unchanged. -/
theorem register_dup_email_terminal (env : RegEnv) (store : Store)
    (b : Body RegisterUserPayload) (p : RegisterUserPayload) (hpw : Str) (i : Nat)
    (hr : readJSON registerFields b = some p)
    (hv : validateRegisterPayload env.emailTag p = true)
    (hh : env.hashPassword p.password = some hpw)
    (hi : i < 5)
    (hdupE : env.createResult i = .dupEmail)
    (hdups : ∀ j < i, env.createResult j = .dupUsername) :
    (registerUserHandler env store b).1 = .badRequestDupEmail ∧
    (registerUserHandler env store b).2.createCalls.length = i + 1 ∧
    (registerUserHandler env store b).2.mailCalled = false ∧
    (registerUserHandler env store b).2.deletedIds = [] ∧
    (registerUserHandler env store b).2.store = store := by
  obtain ⟨trace', heq, hlen⟩ :=
    createLoop_dupEmail_of env p (sha256hex (env.uuid (plainTokenIdx p))) i 5 0
      (plainTokenIdx p + 1) (initialUsername env p) store [] hi (by simpa using hdupE)
      (by simpa using hdups)
  rw [registerUserHandler_eq env store b p hpw hr hv hh, heq]
  refine ⟨rfl, ?_, rfl, rfl, rfl⟩
  simpa using hlen

/-- Witness for C3: the first create reports the email conflict. -/
theorem register_dup_email_terminal_witness :
    (registerUserHandler wEnvDupEmail [] wBody).1 = .badRequestDupEmail ∧
    (registerUserHandler wEnvDupEmail [] wBody).2.createCalls.length = 0 + 1 ∧
    (registerUserHandler wEnvDupEmail [] wBody).2.mailCalled = false ∧
    (registerUserHandler wEnvDupEmail [] wBody).2.deletedIds = [] ∧
    (registerUserHandler wEnvDupEmail [] wBody).2.store = [] :=
  register_dup_email_terminal wEnvDupEmail [] wBody wPayload "bcrypt".data 0
    (by decide) (by decide) rfl (by decide) rfl (by omega)

/-- C2.  When the atomic create succeeds and the mail dispatch fails,
the handler reports an internal error (whether or not the compensating
delete succeeds), invokes the delete on the created id, and — when the
delete succeeds — the store is back to its initial contents, with no
account under the created id. -/
theorem register_mail_failure_compensation (env : RegEnv) (store : Store)
    (b : Body RegisterUserPayload) (p : RegisterUserPayload) (hpw : Str) (i id : Nat)
    (hr : readJSON registerFields b = some p)
    (hv : validateRegisterPayload env.emailTag p = true)
    (hh : env.hashPassword p.password = some hpw)
    (hi : i < 5)
    (hok : env.createResult i = .ok id)
    (hdups : ∀ j < i, env.createResult j = .dupUsername)
    (hid : id ≠ 0)
    (hmail : env.mailResult = none)
    (hfresh : ∀ a ∈ store, a.id ≠ id) :
    (registerUserHandler env store b).1 = .internalError ∧
    (registerUserHandler env store b).2.mailCalled = true ∧
    (registerUserHandler env store b).2.deletedIds = [id] ∧
    (env.deleteOk = true →
      (registerUserHandler env store b).2.store = store ∧
      ∀ a ∈ (registerUserHandler env store b).2.store, a.id ≠ id) := by
  obtain ⟨u', trace', heq, hlen, hmem⟩ :=
    createLoop_success_of env p (sha256hex (env.uuid (plainTokenIdx p))) id i 5 0
      (plainTokenIdx p + 1) (initialUsername env p) store [] hi (by simpa using hok)
      (by simpa using hdups)
  rw [registerUserHandler_eq env store b p hpw hr hv hh, heq]
  simp only [hid, if_neg hid, hmail]
  refine ⟨rfl, rfl, rfl, ?_⟩
  intro hdel
  have hstore : deleteAccount env.deleteOk id (⟨id, u', p.email⟩ :: store) = store := by
    rw [hdel]
    unfold deleteAccount
    rw [if_pos rfl, List.filter_cons_of_neg (by simp)]
    exact List.filter_eq_self.mpr (fun a ha => by simpa using hfresh a ha)
  rw [hstore]
  exact ⟨rfl, hfresh⟩

/-- Witness for C2: create succeeds, mail fails, delete succeeds. -/
theorem register_mail_failure_compensation_witness :
    (registerUserHandler wEnvMailFail [] wBody).1 = .internalError ∧
    (registerUserHandler wEnvMailFail [] wBody).2.mailCalled = true ∧
    (registerUserHandler wEnvMailFail [] wBody).2.deletedIds = [7] ∧
    (wEnvMailFail.deleteOk = true →
      (registerUserHandler wEnvMailFail [] wBody).2.store = [] ∧
      ∀ a ∈ (registerUserHandler wEnvMailFail [] wBody).2.store, a.id ≠ 7) :=
  register_mail_failure_compensation wEnvMailFail [] wBody wPayload "bcrypt".data 0 7
    (by decide) (by decide) rfl (by decide) rfl (by omega) (by decide) rfl
    (by intro a ha; simp at ha)

/-- C9.  A caller-supplied username that collides on the first create
is silently replaced: the retry and the created account use a username
generated from the profile data, not the caller's choice. -/
theorem register_caller_username_replaced (env : RegEnv) (store : Store)
    (b : Body RegisterUserPayload) (p : RegisterUserPayload) (hpw : Str) (id status : Nat)
    (hr : readJSON registerFields b = some p)
    (hv : validateRegisterPayload env.emailTag p = true)
    (hh : env.hashPassword p.password = some hpw)
    (hun : p.username ≠ [])
    (h0 : env.createResult 0 = .dupUsername)
    (h1 : env.createResult 1 = .ok id)
    (hid : id ≠ 0)
    (hmail : env.mailResult = some status) :
    (registerUserHandler env store b).1 =
      .createdUser ⟨id, generateUsername p.firstName p.lastName p.email (env.uuid 1), p.email⟩
        (env.uuid 0) ∧
    (registerUserHandler env store b).2.createCalls.map CreateCall.username =
      [p.username, generateUsername p.firstName p.lastName p.email (env.uuid 1)] := by
  have hpt : plainTokenIdx p = 0 := by simp [plainTokenIdx, hun]
  have hu0 : initialUsername env p = p.username := by simp [initialUsername, hun]
  rw [registerUserHandler_eq env store b p hpw hr hv hh, hpt, hu0]
  simp [createLoop, h0, h1, hid, hmail]

/-- Witness for C9: the caller's `annlee` collides, the retry wins. -/
theorem register_caller_username_replaced_witness :
    (registerUserHandler wEnvRetryOk [] wBodyU).1 =
      .createdUser ⟨7, generateUsername wPayloadU.firstName wPayloadU.lastName wPayloadU.email
          (wEnvRetryOk.uuid 1), wPayloadU.email⟩ (wEnvRetryOk.uuid 0) ∧
    (registerUserHandler wEnvRetryOk [] wBodyU).2.createCalls.map CreateCall.username =
      [wPayloadU.username, generateUsername wPayloadU.firstName wPayloadU.lastName
        wPayloadU.email (wEnvRetryOk.uuid 1)] :=
  register_caller_username_replaced wEnvRetryOk [] wBodyU wPayloadU "bcrypt".data 7 200
    (by decide) (by decide) rfl (by decide) rfl rfl (by decide) rfl

/-- Big-endian decomposition yields exactly `k` bytes. -/
theorem toBytesBE_length (k n : Nat) : (toBytesBE k n).length = k := by
  induction k generalizing n with
  | zero => rfl
  | succ k ih => simp [toBytesBE, ih]

/-- A SHA-256 digest is 32 bytes. -/
theorem sha256bytes_length (msg : List Nat) : (sha256bytes msg).length = 32 := by
  simp [sha256bytes, toBytesBE_length]

/-- Hex encoding doubles the length. -/
theorem hexEncode_length (bs : List Nat) : (hexEncode bs).length = 2 * bs.length := by
  induction bs with
  | nil => rfl
  | cons b bs ih =>
      have h : hexEncode (b :: bs) = [hexDigit (b / 16), hexDigit (b % 16)] ++ hexEncode bs := by
        simp [hexEncode]
      rw [h, List.length_append, ih]
      simp only [List.length_cons, List.length_nil, List.length_singleton]
      omega

/-- A hex-encoded SHA-256 digest is 64 characters. -/
theorem sha256hex_length (s : Str) : (sha256hex s).length = 64 := by
  simp [sha256hex, hexEncode_length, sha256bytes_length]

/-- A hex-encoded SHA-256 digest differs from any string that is not
64 characters long. -/
theorem sha256hex_ne_of_length (s t : Str) (h : t.length ≠ 64) : sha256hex s ≠ t := by
  intro he
  exact h (he ▸ sha256hex_length s)

/-- C5.  On a successful registration every value passed to the
repository for token storage is the hex-encoded SHA-256 hash of the
plaintext token — never the plaintext itself (the plaintext is a
36-character UUID, a digest is 64 characters) — and the response
returns the plaintext alongside the created account. -/
theorem register_token_hash_storage (env : RegEnv) (store : Store)
    (b : Body RegisterUserPayload) (p : RegisterUserPayload) (hpw : Str) (i id status : Nat)
    (hr : readJSON registerFields b = some p)
    (hv : validateRegisterPayload env.emailTag p = true)
    (hh : env.hashPassword p.password = some hpw)
    (hi : i < 5)
    (hok : env.createResult i = .ok id)
    (hdups : ∀ j < i, env.createResult j = .dupUsername)
    (hid : id ≠ 0)
    (hmail : env.mailResult = some status)
    (hlen36 : (env.uuid (plainTokenIdx p)).length = 36) :
    (∀ c ∈ (registerUserHandler env store b).2.createCalls,
       c.tokenHash = sha256hex (env.uuid (plainTokenIdx p)) ∧
       c.tokenHash ≠ env.uuid (plainTokenIdx p)) ∧
    ∃ acct : Account,
      (registerUserHandler env store b).1 = .createdUser acct (env.uuid (plainTokenIdx p)) := by
  obtain ⟨u', trace', heq, hlen, hmem⟩ :=
    createLoop_success_of env p (sha256hex (env.uuid (plainTokenIdx p))) id i 5 0
      (plainTokenIdx p + 1) (initialUsername env p) store [] hi (by simpa using hok)
      (by simpa using hdups)
  rw [registerUserHandler_eq env store b p hpw hr hv hh, heq]
  simp only [hid, if_neg hid, hmail]
  constructor
  · intro c hc
    have hth : c.tokenHash = sha256hex (env.uuid (plainTokenIdx p)) := by
      rcases hmem c hc with h | h
      · simp at h
      · exact h
    refine ⟨hth, ?_⟩
    rw [hth]
    exact sha256hex_ne_of_length _ _ (by rw [hlen36]; omega)
  · exact ⟨⟨id, u', p.email⟩, rfl⟩

/-- Witness for C5 on the happy path. -/
theorem register_token_hash_storage_witness :
    (∀ c ∈ (registerUserHandler wEnvOk [] wBody).2.createCalls,
       c.tokenHash = sha256hex (wEnvOk.uuid (plainTokenIdx wPayload)) ∧
       c.tokenHash ≠ wEnvOk.uuid (plainTokenIdx wPayload)) ∧
    ∃ acct : Account,
      (registerUserHandler wEnvOk [] wBody).1 =
        .createdUser acct (wEnvOk.uuid (plainTokenIdx wPayload)) :=
  register_token_hash_storage wEnvOk [] wBody wPayload "bcrypt".data 0 7 200
    (by decide) (by decide) rfl (by decide) rfl (by omega) (by decide) rfl (by decide)
